import Mathlib

/-
  Verification of the IPS certification backend (FastAPI + SQLModel service).

  A shallow embedding of the request handlers of src/main.py (the current
  draft) and, where a claim cites them, of the scoring loop of
  src/main_working_verify_ok.py. Database tables become Lean lists inside an
  explicit state record; SQLite row-id assignment becomes explicit counters;
  a Python exception becomes an Except error value. Percentages, which the
  Python code carries as IEEE floats, are modelled as exact rationals; the
  two-decimal rounding of the stored percentage is modelled as round half up,
  which agrees with the Python round at every input appearing below (none of
  them is an exact two-decimal tie). HMAC-SHA256 and JSON parsing are
  external primitives and are passed to the webhook embedding as abstract
  functions.
-/

namespace IPS

/-- A raised Python exception or FastAPI HTTPException, as surfaced by a
handler. -/
inductive PyErr where
  | httpError (status : Nat) (detail : String)
  | keyError
  | zeroDivisionError
  | typeError
  | jsonDecodeError
  | attributeError
  deriving DecidableEq, Repr

/-- Fields of database.CertificateType that src/main.py reads. The main.py
draft reads total_questions and mcq_mark, which the database.py draft in the
repository names differently; the embedding follows the fields as main.py
uses them. -/
structure CertificateType where
  code : String
  title : String
  total_questions : Int
  mcq_mark : Int
  pass_percentage : ℚ
  deriving DecidableEq, Repr

/-- database.Question, restricted to the fields the handlers read. -/
structure Question where
  id : Int
  certificate_code : String
  correct_option : Option Int
  question_type : String
  max_marks : Int
  deriving DecidableEq, Repr

/-- main.AnswerItem request model. -/
structure AnswerItem where
  question_id : Int
  selected_option_id : Option Int
  deriving DecidableEq, Repr

/-- main.SubmitRequest request model. -/
structure SubmitRequest where
  name : String
  email : String
  certificate_code : String
  answers : List AnswerItem
  deriving DecidableEq, Repr

/-- database.User row. -/
structure User where
  id : Nat
  full_name : String
  email : String
  deriving DecidableEq, Repr

/-- database.Attempt row. -/
structure Attempt where
  id : Nat
  user_id : Nat
  certificate_code : String
  total_marks : Int
  total_marks_obtained : Int
  percentage : ℚ
  grade : String
  is_passed : Bool
  deriving DecidableEq, Repr

/-- database.Answer row. -/
structure AnswerRow where
  attempt_id : Nat
  question_id : Int
  selected_option_id : Option Int
  correct_option : Option Int
  marks_awarded : Int
  deriving DecidableEq, Repr

/-- database.Certificate row. -/
structure Certificate where
  id : Nat
  user_id : Nat
  certificate_type : String
  certificate_code : String
  percentage : ℚ
  grade : String
  is_paid : Bool
  deriving DecidableEq, Repr

/-- The relational store: one list per table, plus the row-id counters the
SQLite store would advance on insert. -/
structure DB where
  users : List User
  certificate_types : List CertificateType
  questions : List Question
  attempts : List Attempt
  answers : List AnswerRow
  certificates : List Certificate
  nextUserId : Nat
  nextAttemptId : Nat
  nextCertId : Nat
  deriving DecidableEq, Repr

/-- The JSON body returned by POST /exam/submit. -/
structure SubmitResult where
  score : Int
  percentage : ℚ
  passed : Bool
  certificate_code : Option String
  deriving DecidableEq, Repr

/-- Python round(x, 2): scale, round to an integer, unscale. Modelled as
round half up; no input in this development is an exact two-decimal tie, so
the half-to-even behaviour of the Python float round never diverges here. -/
def round2 (q : ℚ) : ℚ :=
  ((⌊q * 100 + 1 / 2⌋ : ℤ) : ℚ) / 100

/-- Zero-padded six-digit formatting, as in the Python format spec 06d. -/
def pad6 (n : Nat) : String :=
  let s := toString n
  String.mk (List.replicate (6 - s.length) '0') ++ s

/-- The certificate code string built in main.submit_exam from the UTC year
and the id of the Attempt row. -/
def mkCertCode (year : Nat) (attemptId : Nat) : String :=
  "IPS-" ++ toString year ++ "-" ++ pad6 attemptId

/-- select(CertificateType).where(code == c).first(). -/
def findCertType (db : DB) (code : String) : Option CertificateType :=
  db.certificate_types.find? (fun ct => ct.code == code)

/-- select(Question).where(certificate_code == c).all(). -/
def questionBank (db : DB) (code : String) : List Question :=
  db.questions.filter (fun q => q.certificate_code == code)

/-- Lookup in the dict built by the comprehension over the question rows:
fold the rows in order, so for a duplicated id the later row wins, exactly
as repeated dict insertion would. -/
def qmapGet (bank : List Question) (qid : Int) : Option Question :=
  bank.foldl (fun acc q => if q.id == qid then some q else acc) none

/-- The users lookup-or-create step of main.submit_exam. -/
def getOrCreateUser (db : DB) (name email : String) : User × DB :=
  match db.users.find? (fun u => u.email == email) with
  | some u => (u, db)
  | none =>
    let u : User := { id := db.nextUserId, full_name := name, email := email }
    (u, { db with users := db.users ++ [u], nextUserId := db.nextUserId + 1 })

/-- The per-answer mark of the grading loop in main.submit_exam: the marks
variable is mcq_mark exactly when the submitted option equals the stored
correct option under plain equality of the two optional values. -/
def answerMarks (mcq_mark : Int) (q : Question) (a : AnswerItem) : Int :=
  if a.selected_option_id = q.correct_option then mcq_mark else 0

/-- The grading loop of main.submit_exam: each answer is looked up in the
question dict (a missing id raises KeyError), scored, and recorded as an
Answer row. Returns the score and the Answer rows in submission order. -/
def gradeAnswers (mcq_mark : Int) (bank : List Question) (attempt_id : Nat) :
    List AnswerItem → Except PyErr (Int × List AnswerRow)
  | [] => Except.ok (0, [])
  | a :: rest =>
    match qmapGet bank a.question_id with
    | none => Except.error PyErr.keyError
    | some q =>
      match gradeAnswers mcq_mark bank attempt_id rest with
      | Except.error e => Except.error e
      | Except.ok (s, rows) =>
        Except.ok (answerMarks mcq_mark q a + s,
          { attempt_id := attempt_id
            question_id := q.id
            selected_option_id := a.selected_option_id
            correct_option := q.correct_option
            marks_awarded := answerMarks mcq_mark q a } :: rows)

/-- total_marks in main.submit_exam: total_questions times mcq_mark, both
read from the certificate type row. -/
def submitTotal (ct : CertificateType) : Int :=
  ct.total_questions * ct.mcq_mark

/-- percentage in main.submit_exam: (score / total_marks) * 100, only
reached when total_marks is nonzero. -/
def submitPct (ct : CertificateType) (score : Int) : ℚ :=
  ((score : ℚ) / ((submitTotal ct : Int) : ℚ)) * 100

/-- passed in main.submit_exam: percentage >= pass_percentage. -/
def submitPassed (ct : CertificateType) (score : Int) : Bool :=
  decide (submitPct ct score ≥ ct.pass_percentage)

/-- The Attempt row as finally committed by main.submit_exam. The Python
code first inserts the row with zeroed score fields to obtain its id and
updates it after grading inside the same handler; only the committed final
row is observable in this model, so it is built in one piece. -/
def attemptRow (db1 : DB) (user : User) (ct : CertificateType)
    (req : SubmitRequest) (score : Int) : Attempt :=
  { id := db1.nextAttemptId
    user_id := user.id
    certificate_code := req.certificate_code
    total_marks := submitTotal ct
    total_marks_obtained := score
    percentage := round2 (submitPct ct score)
    grade := if submitPassed ct score then "PASS" else "FAIL"
    is_passed := submitPassed ct score }

/-- The Certificate row minted by main.submit_exam on a pass: a single
insert whose certificate_code is already final, formatted from the year and
the id of the Attempt row (db1.nextAttemptId). -/
def certRow (db1 : DB) (user : User) (ct : CertificateType) (year : Nat)
    (req : SubmitRequest) (score : Int) : Certificate :=
  { id := db1.nextCertId
    user_id := user.id
    certificate_type := req.certificate_code
    certificate_code := mkCertCode year db1.nextAttemptId
    percentage := round2 (submitPct ct score)
    grade := if submitPassed ct score then "PASS" else "FAIL"
    is_paid := false }

/-- The success tail of main.submit_exam, once the certificate type is
resolved, the user exists, grading succeeded and total_marks is not zero:
commit the attempt and its answer rows, and mint the unpaid certificate
exactly when the attempt passed. -/
def submitFinish (db1 : DB) (user : User) (ct : CertificateType) (year : Nat)
    (req : SubmitRequest) (score : Int) (rows : List AnswerRow) :
    SubmitResult × DB :=
  let attempt := attemptRow db1 user ct req score
  let db2 : DB :=
    { db1 with attempts := db1.attempts ++ [attempt]
               answers := db1.answers ++ rows
               nextAttemptId := db1.nextAttemptId + 1 }
  if submitPassed ct score then
    let cert := certRow db1 user ct year req score
    ({ score := score
       percentage := round2 (submitPct ct score)
       passed := submitPassed ct score
       certificate_code := some cert.certificate_code },
     { db2 with certificates := db2.certificates ++ [cert]
                nextCertId := db2.nextCertId + 1 })
  else
    ({ score := score
       percentage := round2 (submitPct ct score)
       passed := submitPassed ct score
       certificate_code := none }, db2)

/-- The body of main.submit_exam once the certificate type row is resolved:
resolve or create the user, grade the answers (KeyError on an unknown
question id), divide by total_marks (ZeroDivisionError when zero), and
commit via submitFinish. -/
def submitWithCert (db : DB) (year : Nat) (req : SubmitRequest)
    (cert_type : CertificateType) : Except PyErr (SubmitResult × DB) :=
  let ud := getOrCreateUser db req.name req.email
  match gradeAnswers cert_type.mcq_mark (questionBank ud.2 req.certificate_code)
      ud.2.nextAttemptId req.answers with
  | Except.error e => Except.error e
  | Except.ok (score, rows) =>
    if cert_type.total_questions * cert_type.mcq_mark = 0 then
      Except.error PyErr.zeroDivisionError
    else
      Except.ok (submitFinish ud.2 ud.1 cert_type year req score rows)

/-- POST /exam/submit of src/main.py. Resolves the certificate type (404 when
absent), resolves or creates the user, grades the answers (KeyError on an
unknown question id), divides by total_marks (ZeroDivisionError when zero),
records the attempt with the rounded percentage, and mints an unpaid
certificate exactly when the attempt passed. -/
def submit_exam (db : DB) (year : Nat) (req : SubmitRequest) :
    Except PyErr (SubmitResult × DB) :=
  match findCertType db req.certificate_code with
  | none => Except.error (PyErr.httpError 404 "Invalid certificate")
  | some cert_type => submitWithCert db year req cert_type

/-- The rendered artifact FileResponse of the certificate endpoints: the
renderer is an external collaborator, so the response is modelled by the
arguments main.py passes to generate_certificate_png, plus whether the
preview watermark was applied. -/
structure FileResp where
  cert_code : String
  user_name : String
  grade : String
  percentage : ℚ
  watermarked : Bool
  deriving DecidableEq, Repr

/-- select(Certificate).where(certificate_code == code).first(). -/
def findCertificate (db : DB) (code : String) : Option Certificate :=
  db.certificates.find? (fun c => c.certificate_code == code)

/-- session.get(User, uid): primary-key lookup. -/
def getUser (db : DB) (uid : Nat) : Option User :=
  db.users.find? (fun u => u.id == uid)

/-- The clean (unwatermarked) render of main.download_certificate: look up
the owning user (user.full_name on a missing row raises AttributeError) and
pass the certificate fields to generate_certificate_png. -/
def renderClean (db : DB) (cert : Certificate) : Except PyErr FileResp :=
  match getUser db cert.user_id with
  | none => Except.error PyErr.attributeError
  | some user =>
    Except.ok { cert_code := cert.certificate_code
                user_name := user.full_name
                grade := cert.grade
                percentage := cert.percentage
                watermarked := false }

/-- GET /certificate/code/download of src/main.py. The handler raises the
403 payment-required HTTPException both when no certificate with the code
exists and when the certificate is unpaid, in one combined test; a paid
certificate is rendered clean. -/
def download_certificate (db : DB) (code : String) : Except PyErr FileResp :=
  match findCertificate db code with
  | none => Except.error (PyErr.httpError 403 "Payment required")
  | some cert =>
    if cert.is_paid then renderClean db cert
    else Except.error (PyErr.httpError 403 "Payment required")

/-- The parsed webhook JSON body, reduced to the fields the handler reads:
payload.get(event) and the nested notes certificate_code (absent nested keys
raise KeyError). -/
structure WebhookPayload where
  event : Option String
  notes_certificate_code : Option String
  deriving DecidableEq, Repr

/-- The acknowledgement body of the webhook route. -/
inductive WebhookResp where
  | ok
  deriving DecidableEq, Repr

/-- State seen by the webhook: the store plus the log of
send_certificate_email calls, recorded as (user id, certificate code). -/
structure WebhookState where
  db : DB
  emails : List (Nat × String)
  deriving DecidableEq, Repr

/-- Flip is_paid on the first certificate row carrying the code: the handler
mutates the single row returned by .first(). -/
def setPaidFirst : List Certificate → String → List Certificate
  | [], _ => []
  | c :: cs, code =>
    if c.certificate_code == code then { c with is_paid := true } :: cs
    else c :: setPaidFirst cs code

/-- The payment.captured transition of the webhook handler: resolve the
certificate (an unknown code is acknowledged without effect), skip when it
is already paid, otherwise flip is_paid, commit, and email the owning user
(the flip stays committed even if the user row is missing and the email
formatting raises AttributeError). -/
def webhookCapture (code : String) (st : WebhookState) :
    Except PyErr WebhookResp × WebhookState :=
  match findCertificate st.db code with
  | none => (Except.ok WebhookResp.ok, st)
  | some cert =>
    if cert.is_paid then (Except.ok WebhookResp.ok, st)
    else
      match getUser st.db cert.user_id with
      | none =>
        (Except.error PyErr.attributeError,
         { st with db := { st.db with
             certificates := setPaidFirst st.db.certificates code } })
      | some _ =>
        (Except.ok WebhookResp.ok,
         { db := { st.db with
             certificates := setPaidFirst st.db.certificates code }
           emails := st.emails ++ [(cert.user_id, cert.certificate_code)] })

/-- Event dispatch of the webhook handler, after signature check and body
parse: only a payment.captured event does anything (a missing nested
certificate_code key raises KeyError); every other event type is
acknowledged without effect. -/
def webhookApply (payload : WebhookPayload) (st : WebhookState) :
    Except PyErr WebhookResp × WebhookState :=
  if payload.event = some "payment.captured" then
    match payload.notes_certificate_code with
    | none => (Except.error PyErr.keyError, st)
    | some code => webhookCapture code st
  else (Except.ok WebhookResp.ok, st)

/-- POST /webhook/razorpay of src/main.py. hmacHex stands for the keyed
HMAC-SHA256 hex digest (an external primitive) and parse for JSON decoding
of the raw body; both are abstract parameters. A missing signature header
makes hmac.compare_digest raise TypeError before the body is parsed; a
mismatching one raises the 400 HTTPException; a matching one dispatches the
parsed event. Errors leave the state exactly as received, matching the
Python control flow where every raise precedes the session writes (the one
exception is the email lookup failure, which follows the commit, so that
error keeps the flipped state). -/
def razorpay_webhook (hmacHex : String → String → String) (secret : String)
    (body : String) (signature : Option String)
    (parse : String → Option WebhookPayload) (st : WebhookState) :
    Except PyErr WebhookResp × WebhookState :=
  let expected := hmacHex secret body
  match signature with
  | none => (Except.error PyErr.typeError, st)
  | some sig =>
    if sig ≠ expected then
      (Except.error (PyErr.httpError 400 "Invalid signature"), st)
    else
      match parse body with
      | none => (Except.error PyErr.jsonDecodeError, st)
      | some payload => webhookApply payload st

/-
  The scoring path of src/main_working_verify_ok.py: a fixed five-question
  Level-1 bank, MCQ_MARK 4, TOTAL_MARKS 20, PASS_PERCENT 50. Claim C2 cites
  its grading loop, which resolves missing ids with dict.get and therefore
  never raises.
-/

/-- One entry of the LEVEL1_QUESTIONS literal (id and correct option; the
prose and option texts play no role in scoring). -/
structure L1Question where
  id : Int
  correct_option : Int
  deriving DecidableEq, Repr

def MCQ_MARK : Int := 4

def PASS_PERCENT : ℚ := 50

def LEVEL1_QUESTIONS : List L1Question :=
  [{ id := 1, correct_option := 3 },
   { id := 2, correct_option := 1 },
   { id := 3, correct_option := 2 },
   { id := 4, correct_option := 3 },
   { id := 5, correct_option := 1 }]

def TOTAL_MARKS : Int := (LEVEL1_QUESTIONS.length : Int) * MCQ_MARK

/-- dict.get on the Level-1 question dict (later duplicate ids win, as in
repeated dict insertion). -/
def l1Get (qid : Int) : Option L1Question :=
  LEVEL1_QUESTIONS.foldl (fun acc q => if q.id == qid then some q else acc) none

/-- The grading loop of main_working_verify_ok.submit_exam: q = qmap.get,
correct is the correct option when the id is known and None otherwise, and
the marks comparison is plain equality of the two optional values. Total:
no lookup can raise. Returns the score and the Answer rows in order. -/
def gradeAnswersL1 (attempt_id : Nat) :
    List AnswerItem → Int × List AnswerRow
  | [] => (0, [])
  | a :: rest =>
    let correct : Option Int := (l1Get a.question_id).map (fun q => q.correct_option)
    let marks : Int := if a.selected_option_id = correct then MCQ_MARK else 0
    let sr := gradeAnswersL1 attempt_id rest
    (marks + sr.1,
     { attempt_id := attempt_id
       question_id := a.question_id
       selected_option_id := a.selected_option_id
       correct_option := correct
       marks_awarded := marks } :: sr.2)

/-- Request model of main_working_verify_ok.submit_exam. -/
structure SubmitRequestL1 where
  user_name : Option String
  user_email : Option String
  level : Int
  answers : List AnswerItem
  deriving DecidableEq, Repr

/-- Response of main_working_verify_ok.submit_exam together with the
total_marks written to the attempt row (always the constant TOTAL_MARKS).
The user, attempt, answer and certificate persistence of that draft is
omitted: claim C2 concerns only the scoring and error behaviour of the
grading loop, and TOTAL_MARKS does not depend on the store. -/
structure SubmitResultL1 where
  marks : Int
  percentage : ℚ
  passed : Bool
  total_marks : Int
  deriving DecidableEq, Repr

/-- The computation of main_working_verify_ok.submit_exam on its inputs: a
non-Level-1 request is rejected with 400; otherwise the loop scores every
answer, the percentage divides by the constant TOTAL_MARKS (nonzero), and
the handler completes. -/
def submit_exam_l1 (req : SubmitRequestL1) : Except PyErr SubmitResultL1 :=
  if req.level ≠ 1 then Except.error (PyErr.httpError 400 "Only Level-1 supported")
  else
    let score := (gradeAnswersL1 1 req.answers).1
    let pct : ℚ := ((score : ℚ) / (TOTAL_MARKS : ℚ)) * 100
    let passed : Bool := decide (pct ≥ PASS_PERCENT)
    Except.ok { marks := score
                percentage := round2 pct
                passed := passed
                total_marks := TOTAL_MARKS }

/-- Does the response carry a 404-style NotFound error. -/
def isNotFoundResp : Except PyErr FileResp → Bool
  | Except.error (PyErr.httpError 404 _) => true
  | _ => false

/-
  Concrete stores and requests used by the counterexamples and witnesses.
-/

/-- A seeded MCQ question of the LEVEL-1 bank with correct option 1. -/
def mkQ1 (i : Int) : Question :=
  { id := i, certificate_code := "LEVEL-1", correct_option := some 1
    question_type := "MCQ", max_marks := 1 }

/-- LEVEL-1 with 3 questions worth 1 mark each, threshold 50. -/
def ctA : CertificateType :=
  { code := "LEVEL-1", title := "Level 1", total_questions := 3
    mcq_mark := 1, pass_percentage := 50 }

def dbC1 : DB :=
  { users := [{ id := 1, full_name := "Asha", email := "asha@example.com" }]
    certificate_types := [ctA]
    questions := [mkQ1 1, mkQ1 2, mkQ1 3]
    attempts := [], answers := [], certificates := []
    nextUserId := 2, nextAttemptId := 1, nextCertId := 1 }

/-- Four copies of the correct answer to question 1: the submission model
does not forbid duplicate question ids. -/
def reqC1 : SubmitRequest :=
  { name := "Asha", email := "asha@example.com", certificate_code := "LEVEL-1"
    answers := [{ question_id := 1, selected_option_id := some 1 },
                { question_id := 1, selected_option_id := some 1 },
                { question_id := 1, selected_option_id := some 1 },
                { question_id := 1, selected_option_id := some 1 }] }

/-- One question worth 2 marks, threshold 50. -/
def ctW1 : CertificateType :=
  { code := "LEVEL-1", title := "Level 1", total_questions := 1
    mcq_mark := 2, pass_percentage := 50 }

def dbW1 : DB :=
  { users := [{ id := 1, full_name := "Ben", email := "ben@example.com" }]
    certificate_types := [ctW1]
    questions := [{ id := 1, certificate_code := "LEVEL-1"
                    correct_option := some 2, question_type := "MCQ"
                    max_marks := 2 }]
    attempts := [], answers := [], certificates := []
    nextUserId := 2, nextAttemptId := 1, nextCertId := 1 }

def reqW1 : SubmitRequest :=
  { name := "Ben", email := "ben@example.com", certificate_code := "LEVEL-1"
    answers := [{ question_id := 1, selected_option_id := some 2 }] }

def rW1 : SubmitResult :=
  { score := 2, percentage := 100, passed := true
    certificate_code := some "IPS-2026-000001" }

def dbW1f : DB :=
  { dbW1 with
    attempts := [{ id := 1, user_id := 1, certificate_code := "LEVEL-1"
                   total_marks := 2, total_marks_obtained := 2
                   percentage := 100, grade := "PASS", is_passed := true }]
    answers := [{ attempt_id := 1, question_id := 1
                  selected_option_id := some 2, correct_option := some 2
                  marks_awarded := 2 }]
    certificates := [{ id := 1, user_id := 1, certificate_type := "LEVEL-1"
                       certificate_code := "IPS-2026-000001"
                       percentage := 100, grade := "PASS", is_paid := false }]
    nextAttemptId := 2, nextCertId := 2 }

def dbC2 : DB :=
  { users := [], certificate_types := [ctA]
    questions := [mkQ1 1]
    attempts := [], answers := [], certificates := []
    nextUserId := 1, nextAttemptId := 1, nextCertId := 1 }

/-- One answer naming a question id outside the bank. -/
def reqC2 : SubmitRequest :=
  { name := "Chitra", email := "chitra@example.com", certificate_code := "LEVEL-1"
    answers := [{ question_id := 99, selected_option_id := some 1 }] }

/-- Level-1 request of the working draft whose second answer names the
unknown question 99 with a non-null option. -/
def reqW2 : SubmitRequestL1 :=
  { user_name := some "Dev", user_email := some "dev@example.com", level := 1
    answers := [{ question_id := 1, selected_option_id := some 3 },
                { question_id := 99, selected_option_id := some 2 }] }

/-- A certificate type seeded with no questions: total marks 0 times 4. -/
def dbC3 : DB :=
  { users := [], certificate_types := [{ code := "EMPTY", title := "Empty"
                                         total_questions := 0, mcq_mark := 4
                                         pass_percentage := 50 }]
    questions := [], attempts := [], answers := [], certificates := []
    nextUserId := 1, nextAttemptId := 1, nextCertId := 1 }

def reqC3 : SubmitRequest :=
  { name := "Esha", email := "esha@example.com", certificate_code := "EMPTY"
    answers := [] }

def dbW3 : DB :=
  { users := [{ id := 1, full_name := "Fay", email := "fay@example.com" }]
    certificate_types := [{ code := "EMPTY-2", title := "Empty 2"
                            total_questions := 5, mcq_mark := 0
                            pass_percentage := 40 }]
    questions := [], attempts := [], answers := [], certificates := []
    nextUserId := 2, nextAttemptId := 1, nextCertId := 1 }

def reqW3 : SubmitRequest :=
  { name := "Fay", email := "fay@example.com", certificate_code := "EMPTY-2"
    answers := [] }

/-- LEVEL-2: two questions worth 5, threshold 80; one wrong answer fails. -/
def dbW4 : DB :=
  { users := [{ id := 1, full_name := "Gita", email := "gita@example.com" }]
    certificate_types := [{ code := "LEVEL-2", title := "Level 2"
                            total_questions := 2, mcq_mark := 5
                            pass_percentage := 80 }]
    questions := [{ id := 1, certificate_code := "LEVEL-2"
                    correct_option := some 1, question_type := "MCQ"
                    max_marks := 5 },
                  { id := 2, certificate_code := "LEVEL-2"
                    correct_option := some 1, question_type := "MCQ"
                    max_marks := 5 }]
    attempts := [], answers := [], certificates := []
    nextUserId := 2, nextAttemptId := 1, nextCertId := 1 }

def reqW4 : SubmitRequest :=
  { name := "Gita", email := "gita@example.com", certificate_code := "LEVEL-2"
    answers := [{ question_id := 1, selected_option_id := some 2 }] }

def rW4 : SubmitResult :=
  { score := 0, percentage := 0, passed := false, certificate_code := none }

def dbW4f : DB :=
  { dbW4 with
    attempts := [{ id := 1, user_id := 1, certificate_code := "LEVEL-2"
                   total_marks := 10, total_marks_obtained := 0
                   percentage := 0, grade := "FAIL", is_passed := false }]
    answers := [{ attempt_id := 1, question_id := 1
                  selected_option_id := some 2, correct_option := some 1
                  marks_awarded := 0 }]
    nextAttemptId := 2 }

/-- An unpaid certificate whose owner is user 1, for the webhook runs. -/
def certW5 : Certificate :=
  { id := 1, user_id := 1, certificate_type := "LEVEL-1"
    certificate_code := "IPS-2026-000001", percentage := 100
    grade := "PASS", is_paid := false }

def dbW5 : DB :=
  { users := [{ id := 1, full_name := "Hema", email := "hema@example.com" }]
    certificate_types := [], questions := [], attempts := [], answers := []
    certificates := [certW5]
    nextUserId := 2, nextAttemptId := 2, nextCertId := 2 }

def stW5 : WebhookState := { db := dbW5, emails := [] }

def payW5 : WebhookPayload :=
  { event := some "payment.captured"
    notes_certificate_code := some "IPS-2026-000001" }

def hmW5 : String → String → String := fun _ _ => "d41d8cd9"

def parseW5 : String → Option WebhookPayload := fun _ => some payW5

def hmW6 : String → String → String := fun _ _ => "a3f2b8c1"

def parseW6 : String → Option WebhookPayload := fun _ => none

def stW6 : WebhookState :=
  { db := { users := [], certificate_types := [], questions := []
            attempts := [], answers := [], certificates := []
            nextUserId := 1, nextAttemptId := 1, nextCertId := 1 }
    emails := [] }

/-- A store with no certificates at all. -/
def dbC7 : DB :=
  { users := [], certificate_types := [], questions := []
    attempts := [], answers := [], certificates := []
    nextUserId := 1, nextAttemptId := 1, nextCertId := 1 }

def certW7 : Certificate :=
  { id := 1, user_id := 1, certificate_type := "LEVEL-1"
    certificate_code := "IPS-2026-000002", percentage := 80
    grade := "PASS", is_paid := true }

def uW7 : User := { id := 1, full_name := "Indra", email := "indra@example.com" }

def dbW7 : DB :=
  { users := [uW7]
    certificate_types := [], questions := [], attempts := [], answers := []
    certificates := [certW7]
    nextUserId := 2, nextAttemptId := 2, nextCertId := 3 }

/-- Store whose attempt counter is at 4 while the certificate counter is at
1, so the freshly minted rows get different ids. -/
def dbC8 : DB :=
  { users := [{ id := 1, full_name := "Jaya", email := "jaya@example.com" }]
    certificate_types := [ctA]
    questions := [mkQ1 1, mkQ1 2, mkQ1 3]
    attempts := [], answers := [], certificates := []
    nextUserId := 2, nextAttemptId := 4, nextCertId := 1 }

def reqC8 : SubmitRequest :=
  { name := "Jaya", email := "jaya@example.com", certificate_code := "LEVEL-1"
    answers := [{ question_id := 1, selected_option_id := some 1 },
                { question_id := 2, selected_option_id := some 1 },
                { question_id := 3, selected_option_id := some 1 }] }

def dbW8 : DB :=
  { users := [{ id := 1, full_name := "Kiran", email := "kiran@example.com" }]
    certificate_types := [{ code := "LEVEL-1", title := "Level 1"
                            total_questions := 1, mcq_mark := 2
                            pass_percentage := 50 }]
    questions := [{ id := 1, certificate_code := "LEVEL-1"
                    correct_option := some 2, question_type := "MCQ"
                    max_marks := 2 }]
    attempts := [], answers := [], certificates := []
    nextUserId := 2, nextAttemptId := 7, nextCertId := 1 }

def reqW8 : SubmitRequest :=
  { name := "Kiran", email := "kiran@example.com", certificate_code := "LEVEL-1"
    answers := [{ question_id := 1, selected_option_id := some 2 }] }

def rW8 : SubmitResult :=
  { score := 2, percentage := 100, passed := true
    certificate_code := some "IPS-2027-000007" }

def dbW8f : DB :=
  { dbW8 with
    attempts := [{ id := 7, user_id := 1, certificate_code := "LEVEL-1"
                   total_marks := 2, total_marks_obtained := 2
                   percentage := 100, grade := "PASS", is_passed := true }]
    answers := [{ attempt_id := 7, question_id := 1
                  selected_option_id := some 2, correct_option := some 2
                  marks_awarded := 2 }]
    certificates := [{ id := 1, user_id := 1, certificate_type := "LEVEL-1"
                       certificate_code := "IPS-2027-000007"
                       percentage := 100, grade := "PASS", is_paid := false }]
    nextAttemptId := 8, nextCertId := 2 }

/-- A short-answer question row whose correct_option is NULL. -/
def bankW9 : List Question :=
  [{ id := 7, certificate_code := "LEVEL-3", correct_option := none
     question_type := "SHORT", max_marks := 4 }]

def aW9 : AnswerItem := { question_id := 7, selected_option_id := none }

/-
  Helper lemmas.
-/

theorem getOrCreateUser_questions (db : DB) (n e : String) :
    ((getOrCreateUser db n e).2).questions = db.questions := by
  unfold getOrCreateUser; split <;> rfl

theorem getOrCreateUser_attempts (db : DB) (n e : String) :
    ((getOrCreateUser db n e).2).attempts = db.attempts := by
  unfold getOrCreateUser; split <;> rfl

theorem getOrCreateUser_answers (db : DB) (n e : String) :
    ((getOrCreateUser db n e).2).answers = db.answers := by
  unfold getOrCreateUser; split <;> rfl

theorem getOrCreateUser_certificates (db : DB) (n e : String) :
    ((getOrCreateUser db n e).2).certificates = db.certificates := by
  unfold getOrCreateUser; split <;> rfl

theorem getOrCreateUser_nextAttemptId (db : DB) (n e : String) :
    ((getOrCreateUser db n e).2).nextAttemptId = db.nextAttemptId := by
  unfold getOrCreateUser; split <;> rfl

theorem getOrCreateUser_nextCertId (db : DB) (n e : String) :
    ((getOrCreateUser db n e).2).nextCertId = db.nextCertId := by
  unfold getOrCreateUser; split <;> rfl

theorem questionBank_getOrCreateUser (db : DB) (n e code : String) :
    questionBank ((getOrCreateUser db n e).2) code = questionBank db code := by
  unfold questionBank; rw [getOrCreateUser_questions]

/-- Success of the grading loop pins down the whole pipeline of
main.submit_exam: the certificate type resolves, the loop succeeds, the
total is nonzero, and the outcome is submitFinish on those pieces. -/
theorem submit_exam_ok_elim {db : DB} {year : Nat} {req : SubmitRequest}
    {r : SubmitResult} {db' : DB}
    (h : submit_exam db year req = Except.ok (r, db')) :
    ∃ ct score rows,
      findCertType db req.certificate_code = some ct ∧
      gradeAnswers ct.mcq_mark (questionBank db req.certificate_code)
        db.nextAttemptId req.answers = Except.ok (score, rows) ∧
      ct.total_questions * ct.mcq_mark ≠ 0 ∧
      submitFinish (getOrCreateUser db req.name req.email).2
        (getOrCreateUser db req.name req.email).1 ct year req score rows
        = (r, db') := by
  unfold submit_exam at h
  cases hct : findCertType db req.certificate_code with
  | none => rw [hct] at h; cases h
  | some ct =>
    rw [hct] at h
    have h1 : submitWithCert db year req ct = Except.ok (r, db') := h
    simp only [submitWithCert] at h1
    rw [questionBank_getOrCreateUser, getOrCreateUser_nextAttemptId] at h1
    cases hg : gradeAnswers ct.mcq_mark (questionBank db req.certificate_code)
        db.nextAttemptId req.answers with
    | error e => rw [hg] at h1; cases h1
    | ok pr =>
      obtain ⟨score, rows⟩ := pr
      rw [hg] at h1
      have h2 : (if ct.total_questions * ct.mcq_mark = 0 then
            (Except.error PyErr.zeroDivisionError : Except PyErr (SubmitResult × DB))
          else
            Except.ok (submitFinish (getOrCreateUser db req.name req.email).2
              (getOrCreateUser db req.name req.email).1 ct year req score rows))
          = Except.ok (r, db') := h1
      by_cases hT : ct.total_questions * ct.mcq_mark = 0
      · rw [if_pos hT] at h2; cases h2
      · rw [if_neg hT] at h2
        exact ⟨ct, score, rows, rfl, hg, hT, (Except.ok.injEq _ _).mp h2⟩

theorem answerMarks_nonneg {mark : Int} (hm : 0 ≤ mark) (q : Question)
    (a : AnswerItem) : 0 ≤ answerMarks mark q a := by
  unfold answerMarks; split
  · exact hm
  · exact le_refl 0

theorem answerMarks_le {mark : Int} (hm : 0 ≤ mark) (q : Question)
    (a : AnswerItem) : answerMarks mark q a ≤ mark := by
  unfold answerMarks; split
  · exact le_refl mark
  · exact hm

theorem gradeAnswers_ok_nonneg {mark : Int} (hm : 0 ≤ mark)
    {bank : List Question} {aid : Nat} :
    ∀ {ans : List AnswerItem} {s : Int} {rows : List AnswerRow},
      gradeAnswers mark bank aid ans = Except.ok (s, rows) → 0 ≤ s := by
  intro ans
  induction ans with
  | nil =>
    intro s rows h
    unfold gradeAnswers at h
    obtain ⟨h1, h2⟩ := Prod.mk.injEq _ _ _ _ ▸ (Except.ok.injEq _ _).mp h
    omega
  | cons a rest ih =>
    intro s rows h
    unfold gradeAnswers at h
    cases hq : qmapGet bank a.question_id with
    | none => rw [hq] at h; cases h
    | some q =>
      rw [hq] at h
      cases hr : gradeAnswers mark bank aid rest with
      | error e => rw [hr] at h; cases h
      | ok pr =>
        obtain ⟨s2, rows2⟩ := pr
        rw [hr] at h
        obtain ⟨h1, h2⟩ := Prod.mk.injEq _ _ _ _ ▸ (Except.ok.injEq _ _).mp h
        have hs2 := ih hr
        have hma := answerMarks_nonneg hm q a
        omega

theorem gradeAnswers_ok_le {mark : Int} (hm : 0 ≤ mark)
    {bank : List Question} {aid : Nat} :
    ∀ {ans : List AnswerItem} {s : Int} {rows : List AnswerRow},
      gradeAnswers mark bank aid ans = Except.ok (s, rows) →
      s ≤ mark * (ans.length : Int) := by
  intro ans
  induction ans with
  | nil =>
    intro s rows h
    unfold gradeAnswers at h
    obtain ⟨h1, h2⟩ := Prod.mk.injEq _ _ _ _ ▸ (Except.ok.injEq _ _).mp h
    simp [← h1]
  | cons a rest ih =>
    intro s rows h
    unfold gradeAnswers at h
    cases hq : qmapGet bank a.question_id with
    | none => rw [hq] at h; cases h
    | some q =>
      rw [hq] at h
      cases hr : gradeAnswers mark bank aid rest with
      | error e => rw [hr] at h; cases h
      | ok pr =>
        obtain ⟨s2, rows2⟩ := pr
        rw [hr] at h
        obtain ⟨h1, h2⟩ := Prod.mk.injEq _ _ _ _ ▸ (Except.ok.injEq _ _).mp h
        have hs2 := ih hr
        have hma := answerMarks_le hm q a
        have hlen : ((a :: rest).length : Int) = (rest.length : Int) + 1 := by
          simp
        rw [hlen, mul_add, mul_one]
        omega

theorem gradeAnswers_ok_found {mark : Int} {bank : List Question} {aid : Nat} :
    ∀ {ans : List AnswerItem} {s : Int} {rows : List AnswerRow},
      gradeAnswers mark bank aid ans = Except.ok (s, rows) →
      ∀ a ∈ ans, (qmapGet bank a.question_id).isSome := by
  intro ans
  induction ans with
  | nil => intro s rows _ a ha; cases ha
  | cons a rest ih =>
    intro s rows h b hb
    unfold gradeAnswers at h
    cases hq : qmapGet bank a.question_id with
    | none => rw [hq] at h; cases h
    | some q =>
      rw [hq] at h
      cases hr : gradeAnswers mark bank aid rest with
      | error e => rw [hr] at h; cases h
      | ok pr =>
        rcases List.mem_cons.mp hb with hba | hbr
        · rw [hba, hq]; rfl
        · exact ih hr b hbr

theorem gradeAnswers_total {mark : Int} {bank : List Question} {aid : Nat} :
    ∀ {ans : List AnswerItem},
      (∀ a ∈ ans, (qmapGet bank a.question_id).isSome) →
      ∃ s rows, gradeAnswers mark bank aid ans = Except.ok (s, rows) := by
  intro ans
  induction ans with
  | nil => intro _; exact ⟨0, [], rfl⟩
  | cons a rest ih =>
    intro hfound
    obtain ⟨s2, rows2, hr⟩ := ih (fun b hb => hfound b (List.mem_cons_of_mem a hb))
    have ha := hfound a (List.mem_cons_self a rest)
    cases hq : qmapGet bank a.question_id with
    | none => rw [hq] at ha; cases ha
    | some q =>
      refine ⟨answerMarks mark q a + s2,
        ({ attempt_id := aid, question_id := q.id
           selected_option_id := a.selected_option_id
           correct_option := q.correct_option
           marks_awarded := answerMarks mark q a } :: rows2), ?_⟩
      unfold gradeAnswers
      rw [hq, hr]

theorem lookup_foldl_isSome {qid : Int} :
    ∀ (l : List Question) (acc : Option Question),
      (l.foldl (fun acc q => if q.id == qid then some q else acc) acc).isSome →
      acc.isSome = true ∨ ∃ q ∈ l, q.id = qid := by
  intro l
  induction l with
  | nil => intro acc h; exact Or.inl h
  | cons q l ih =>
    intro acc h
    rw [List.foldl_cons] at h
    rcases ih _ h with h1 | ⟨p, hp, hpid⟩
    · cases hqb : q.id == qid with
      | true => exact Or.inr ⟨q, List.mem_cons_self q l, by simpa using hqb⟩
      | false =>
        rw [hqb] at h1
        simp at h1
        exact Or.inl h1
    · exact Or.inr ⟨p, List.mem_cons_of_mem q hp, hpid⟩

theorem qmapGet_isSome_mem {bank : List Question} {qid : Int}
    (h : (qmapGet bank qid).isSome) : qid ∈ bank.map (fun q => q.id) := by
  unfold qmapGet at h
  rcases lookup_foldl_isSome bank none h with h1 | ⟨q, hq, hid⟩
  · simp at h1
  · exact List.mem_map.mpr ⟨q, hq, hid⟩

/-- With pairwise-distinct question ids that all resolve in the bank, a
submission cannot carry more answers than the bank has questions. -/
theorem answers_length_le_bank {bank : List Question} {ans : List AnswerItem}
    (hn : (ans.map (fun a => a.question_id)).Nodup)
    (hf : ∀ a ∈ ans, (qmapGet bank a.question_id).isSome) :
    ans.length ≤ bank.length := by
  have hsub : (ans.map (fun a => a.question_id)) ⊆ (bank.map (fun q => q.id)) := by
    intro x hx
    obtain ⟨a, ha, hax⟩ := List.mem_map.mp hx
    rw [← hax]
    exact qmapGet_isSome_mem (hf a ha)
  have := (hn.subperm hsub).length_le
  simpa using this

theorem submitFinish_snd_attempts (db1 : DB) (user : User)
    (ct : CertificateType) (year : Nat) (req : SubmitRequest) (score : Int)
    (rows : List AnswerRow) :
    (submitFinish db1 user ct year req score rows).2.attempts
      = db1.attempts ++ [attemptRow db1 user ct req score] := by
  cases hp : submitPassed ct score <;> simp [submitFinish, hp]

theorem submitFinish_snd_answers (db1 : DB) (user : User)
    (ct : CertificateType) (year : Nat) (req : SubmitRequest) (score : Int)
    (rows : List AnswerRow) :
    (submitFinish db1 user ct year req score rows).2.answers
      = db1.answers ++ rows := by
  cases hp : submitPassed ct score <;> simp [submitFinish, hp]

theorem submitFinish_snd_certificates (db1 : DB) (user : User)
    (ct : CertificateType) (year : Nat) (req : SubmitRequest) (score : Int)
    (rows : List AnswerRow) :
    (submitFinish db1 user ct year req score rows).2.certificates
      = (if submitPassed ct score then
          db1.certificates ++ [certRow db1 user ct year req score]
         else db1.certificates) := by
  cases hp : submitPassed ct score <;> simp [submitFinish, hp]

theorem submitFinish_fst (db1 : DB) (user : User)
    (ct : CertificateType) (year : Nat) (req : SubmitRequest) (score : Int)
    (rows : List AnswerRow) :
    (submitFinish db1 user ct year req score rows).1
      = { score := score
          percentage := round2 (submitPct ct score)
          passed := submitPassed ct score
          certificate_code := (if submitPassed ct score then
              some (mkCertCode year db1.nextAttemptId)
            else none) } := by
  cases hp : submitPassed ct score <;> simp [submitFinish, certRow, hp]

/-- C1: for a submission with pairwise-distinct question ids against a
sanely seeded certificate type (nonnegative mcq_mark, at most
total_questions seeded questions) on which submit_exam completes, the
recorded Attempt has 0 ≤ marks_obtained ≤ total_marks, its stored
percentage is 100 * marks_obtained / total_marks rounded to two decimals,
and passed holds exactly when the unrounded percentage reaches
pass_percentage. (The claim as frozen fails without the distinctness and
rounding provisos; see the counterexample.) -/
theorem submit_exam_attempt_invariants
    (db : DB) (year : Nat) (req : SubmitRequest) (ct : CertificateType)
    (r : SubmitResult) (db' : DB)
    (hct : findCertType db req.certificate_code = some ct)
    (hmark : 0 ≤ ct.mcq_mark)
    (hbank : ((questionBank db req.certificate_code).length : Int)
      ≤ ct.total_questions)
    (hdistinct : (req.answers.map (fun a => a.question_id)).Nodup)
    (hok : submit_exam db year req = Except.ok (r, db')) :
    ∃ att : Attempt, db'.attempts = db.attempts ++ [att] ∧
      att.total_marks = ct.total_questions * ct.mcq_mark ∧
      0 ≤ att.total_marks_obtained ∧
      att.total_marks_obtained ≤ att.total_marks ∧
      att.percentage
        = round2 (100 * (att.total_marks_obtained : ℚ) / (att.total_marks : ℚ)) ∧
      (att.is_passed = true ↔
        100 * (att.total_marks_obtained : ℚ) / (att.total_marks : ℚ)
          ≥ ct.pass_percentage) := by
  obtain ⟨ct2, score, rows, hct2, hg, hT, hsf⟩ := submit_exam_ok_elim hok
  rw [hct] at hct2
  injection hct2 with hcc
  subst hcc
  have hdb : db'
      = (submitFinish (getOrCreateUser db req.name req.email).2
          (getOrCreateUser db req.name req.email).1 ct year req score rows).2 := by
    rw [hsf]
  have hpq : submitPct ct score
      = 100 * (score : ℚ) / ((submitTotal ct : Int) : ℚ) := by
    unfold submitPct; ring
  refine ⟨attemptRow (getOrCreateUser db req.name req.email).2
    (getOrCreateUser db req.name req.email).1 ct req score, ?_, rfl, ?_, ?_, ?_, ?_⟩
  · rw [hdb, submitFinish_snd_attempts, getOrCreateUser_attempts]
  · exact gradeAnswers_ok_nonneg hmark hg
  · have h1 := gradeAnswers_ok_le hmark hg
    have h2 := answers_length_le_bank hdistinct (gradeAnswers_ok_found hg)
    have h2i : ((req.answers.length : Nat) : Int)
        ≤ (((questionBank db req.certificate_code).length : Nat) : Int) := by
      exact_mod_cast h2
    have h3 := mul_le_mul_of_nonneg_left h2i hmark
    have h4 := mul_le_mul_of_nonneg_left hbank hmark
    have h5 : ct.mcq_mark * ct.total_questions
        = ct.total_questions * ct.mcq_mark := mul_comm _ _
    show score ≤ submitTotal ct
    unfold submitTotal
    linarith
  · show round2 (submitPct ct score)
      = round2 (100 * (score : ℚ) / ((submitTotal ct : Int) : ℚ))
    rw [hpq]
  · show submitPassed ct score = true ↔
      100 * (score : ℚ) / ((submitTotal ct : Int) : ℚ) ≥ ct.pass_percentage
    unfold submitPassed
    rw [hpq]
    exact decide_eq_true_iff

/-- C1 counterexample: against LEVEL-1 with total_marks 3, a submission
repeating the correct answer to question 1 four times is recorded with
marks_obtained 4 > total_marks 3, and the stored percentage 133.33 differs
from 100 * 4 / 3; the claim fails as frozen. -/
theorem submit_exam_marks_exceed_total_cx :
    (submit_exam dbC1 2026 reqC1).toOption.map
        (fun p => p.2.attempts.map
          (fun t => (t.total_marks_obtained, t.total_marks, t.percentage)))
      = some [(4, 3, 13333 / 100)] ∧
    ¬ ((4 : Int) ≤ 3) ∧ (13333 / 100 : ℚ) ≠ 100 * (4 : ℚ) / 3 := by
  refine ⟨?_, by norm_num, by norm_num⟩
  norm_num [submit_exam, submitWithCert, findCertType, getOrCreateUser,
    questionBank, qmapGet, gradeAnswers, answerMarks, submitFinish, attemptRow,
    certRow, submitPassed, submitPct, submitTotal, round2, dbC1, reqC1, ctA,
    mkQ1, List.find?, Except.toOption]

/-- C1 witness: a one-question exam answered correctly. -/
theorem submit_exam_attempt_invariants_witness :
    ∃ att : Attempt, dbW1f.attempts = dbW1.attempts ++ [att] ∧
      att.total_marks = ctW1.total_questions * ctW1.mcq_mark ∧
      0 ≤ att.total_marks_obtained ∧
      att.total_marks_obtained ≤ att.total_marks ∧
      att.percentage
        = round2 (100 * (att.total_marks_obtained : ℚ) / (att.total_marks : ℚ)) ∧
      (att.is_passed = true ↔
        100 * (att.total_marks_obtained : ℚ) / (att.total_marks : ℚ)
          ≥ ctW1.pass_percentage) :=
  submit_exam_attempt_invariants dbW1 2026 reqW1 ctW1 rW1 dbW1f
    (by decide) (by decide) (by decide) (by decide)
    (by
      norm_num [submit_exam, submitWithCert, findCertType, getOrCreateUser,
        questionBank, qmapGet, gradeAnswers, answerMarks, submitFinish,
        attemptRow, certRow, submitPassed, submitPct, submitTotal, round2,
        mkCertCode, pad6, dbW1, reqW1, ctW1, rW1, dbW1f, List.find?]
      decide)

theorem l1_foldl_none {qid : Int} :
    ∀ (l : List L1Question) (acc : Option L1Question),
      (∀ q ∈ l, q.id ≠ qid) →
      l.foldl (fun acc q => if q.id == qid then some q else acc) acc = acc := by
  intro l
  induction l with
  | nil => intro acc _; rfl
  | cons q l ih =>
    intro acc h
    rw [List.foldl_cons]
    have hq : (q.id == qid) = false := by
      simpa using h q (List.mem_cons_self q l)
    rw [hq]
    exact ih acc (fun p hp => h p (List.mem_cons_of_mem q hp))

theorem l1Get_eq_none {qid : Int}
    (h : ∀ q ∈ LEVEL1_QUESTIONS, q.id ≠ qid) : l1Get qid = none :=
  l1_foldl_none LEVEL1_QUESTIONS none h

theorem gradeAnswersL1_score_append (aid : Nat) (xs ys : List AnswerItem) :
    (gradeAnswersL1 aid (xs ++ ys)).1
      = (gradeAnswersL1 aid xs).1 + (gradeAnswersL1 aid ys).1 := by
  induction xs with
  | nil => simp [gradeAnswersL1]
  | cons a xs ih =>
    simp only [List.cons_append, gradeAnswersL1, List.append_eq, ih]
    ring

theorem gradeAnswersL1_rows_append (aid : Nat) (xs ys : List AnswerItem) :
    (gradeAnswersL1 aid (xs ++ ys)).2
      = (gradeAnswersL1 aid xs).2 ++ (gradeAnswersL1 aid ys).2 := by
  induction xs with
  | nil => simp [gradeAnswersL1]
  | cons a xs ih =>
    simp only [List.cons_append, gradeAnswersL1, List.append_eq, ih]

theorem gradeAnswersL1_rows_length (aid : Nat) (xs : List AnswerItem) :
    (gradeAnswersL1 aid xs).2.length = xs.length := by
  induction xs with
  | nil => rfl
  | cons a xs ih => simp [gradeAnswersL1, ih]

/-- The handler of the working draft always succeeds on a Level-1 request:
the scoring loop is total and the divisor is the nonzero constant. -/
theorem submit_exam_l1_ok {req : SubmitRequestL1} (h : req.level = 1) :
    submit_exam_l1 req = Except.ok
      { marks := (gradeAnswersL1 1 req.answers).1
        percentage := round2
          ((((gradeAnswersL1 1 req.answers).1 : ℚ) / (TOTAL_MARKS : ℚ)) * 100)
        passed := decide
          ((((gradeAnswersL1 1 req.answers).1 : ℚ) / (TOTAL_MARKS : ℚ)) * 100
            ≥ PASS_PERCENT)
        total_marks := TOTAL_MARKS } := by
  simp [submit_exam_l1, h]

/-- C2 (amended): the grading loop of main_working_verify_ok.submit_exam
never raises on an unknown question id; an unknown answer carrying a
non-null selected option contributes 0 marks (its recorded row awards 0),
the other answers are scored as before, and the attempt total stays the
constant 20. In main.py the same submission raises KeyError instead (see
the counterexample, whose second half also shows that a null selection on
an unknown id is awarded full marks by the None == None comparison, which
is why the non-null proviso is needed). -/
theorem submit_l1_skips_unknown_question
    (req : SubmitRequestL1) (pre post : List AnswerItem) (a : AnswerItem)
    (v : Int)
    (hlevel : req.level = 1)
    (hans : req.answers = pre ++ a :: post)
    (hunknown : ∀ q ∈ LEVEL1_QUESTIONS, q.id ≠ a.question_id)
    (hsel : a.selected_option_id = some v) :
    ∃ r r2 : SubmitResultL1,
      submit_exam_l1 req = Except.ok r ∧
      submit_exam_l1 { req with answers := pre ++ post } = Except.ok r2 ∧
      r.marks = r2.marks ∧ r.total_marks = 20 ∧ r2.total_marks = 20 ∧
      ((gradeAnswersL1 1 req.answers).2.map
        (fun row => row.marks_awarded))[pre.length]? = some 0 := by
  have hnone : l1Get a.question_id = none := l1Get_eq_none hunknown
  have hmarks0 : (if a.selected_option_id
      = (l1Get a.question_id).map (fun q => q.correct_option)
      then MCQ_MARK else (0 : Int)) = 0 := by
    rw [hnone, hsel]; simp
  have hscore : (gradeAnswersL1 1 req.answers).1
      = (gradeAnswersL1 1 (pre ++ post)).1 := by
    rw [hans, gradeAnswersL1_score_append, gradeAnswersL1_score_append]
    have hhead : (gradeAnswersL1 1 (a :: post)).1
        = (gradeAnswersL1 1 post).1 := by
      simp only [gradeAnswersL1, hmarks0]
      ring
    rw [hhead]
  refine ⟨_, _, submit_exam_l1_ok hlevel, submit_exam_l1_ok hlevel, ?_, rfl,
    rfl, ?_⟩
  · simpa using hscore
  · rw [hans, gradeAnswersL1_rows_append, List.map_append,
      List.getElem?_append_right (by simp [gradeAnswersL1_rows_length])]
    simp only [List.length_map, gradeAnswersL1_rows_length, Nat.sub_self]
    simp [gradeAnswersL1, hmarks0]

/-- C2 counterexample: main.submit_exam raises KeyError on a submission
whose answer names the out-of-bank question 99, and the working draft
grading loop awards full marks (4) to an unknown question answered with a
null option. -/
theorem submit_exam_unknown_question_cx :
    submit_exam dbC2 2026 reqC2 = Except.error PyErr.keyError ∧
    (gradeAnswersL1 1 [{ question_id := 99, selected_option_id := none }]).1
      = 4 := by
  exact ⟨rfl, rfl⟩

/-- C2 witness: answers to question 1 and to the unknown question 99. -/
theorem submit_l1_skips_unknown_question_witness :
    ∃ r r2 : SubmitResultL1,
      submit_exam_l1 reqW2 = Except.ok r ∧
      submit_exam_l1 { reqW2 with
        answers := [{ question_id := 1, selected_option_id := some 3 }] }
        = Except.ok r2 ∧
      r.marks = r2.marks ∧ r.total_marks = 20 ∧ r2.total_marks = 20 ∧
      ((gradeAnswersL1 1 reqW2.answers).2.map
        (fun row => row.marks_awarded))[1]? = some 0 :=
  submit_l1_skips_unknown_question reqW2
    [{ question_id := 1, selected_option_id := some 3 }] []
    { question_id := 99, selected_option_id := some 2 } 2
    rfl rfl (by decide) rfl

/-- C3 (amended): when the certificate type yields total_marks = 0 and every
answer resolves in the bank, main.submit_exam raises ZeroDivisionError from
the percentage computation instead of defining the percentage as 0; no
graded result is returned. -/
theorem submit_exam_zero_total_raises
    (db : DB) (year : Nat) (req : SubmitRequest) (ct : CertificateType)
    (hct : findCertType db req.certificate_code = some ct)
    (hT : ct.total_questions * ct.mcq_mark = 0)
    (hfound : ∀ a ∈ req.answers,
      (qmapGet (questionBank db req.certificate_code) a.question_id).isSome) :
    submit_exam db year req = Except.error PyErr.zeroDivisionError := by
  obtain ⟨s, rows, hg⟩ := @gradeAnswers_total ct.mcq_mark
    (questionBank db req.certificate_code) db.nextAttemptId req.answers hfound
  unfold submit_exam
  rw [hct]
  have h1 : submitWithCert db year req ct
      = Except.error PyErr.zeroDivisionError := by
    simp only [submitWithCert]
    rw [questionBank_getOrCreateUser, getOrCreateUser_nextAttemptId, hg]
    show (if ct.total_questions * ct.mcq_mark = 0 then
        (Except.error PyErr.zeroDivisionError : Except PyErr (SubmitResult × DB))
      else Except.ok (submitFinish (getOrCreateUser db req.name req.email).2
        (getOrCreateUser db req.name req.email).1 ct year req s rows))
      = Except.error PyErr.zeroDivisionError
    rw [if_pos hT]
  exact h1

/-- C3 counterexample: the EMPTY certificate type is seeded with zero
questions, so total_marks is 0 and the handler raises ZeroDivisionError
rather than reporting a 0 percentage. -/
theorem submit_exam_zero_total_cx :
    submit_exam dbC3 2026 reqC3 = Except.error PyErr.zeroDivisionError := by
  exact rfl

/-- C3 witness: a certificate type with mcq_mark 0 and an empty submission. -/
theorem submit_exam_zero_total_raises_witness :
    submit_exam dbW3 2027 reqW3 = Except.error PyErr.zeroDivisionError :=
  submit_exam_zero_total_raises dbW3 2027 reqW3
    { code := "EMPTY-2", title := "Empty 2", total_questions := 5
      mcq_mark := 0, pass_percentage := 40 }
    rfl (by decide) (by intro a ha; cases ha)

/-- C4: a submission that completes mints a Certificate row if and only if
its Attempt passed; every minted Certificate starts with is_paid = false,
and a failed Attempt leaves the certificates table untouched. -/
theorem submit_exam_certificate_iff_passed
    (db : DB) (year : Nat) (req : SubmitRequest) (r : SubmitResult) (db' : DB)
    (hok : submit_exam db year req = Except.ok (r, db')) :
    ∃ att : Attempt, db'.attempts = db.attempts ++ [att] ∧
      att.is_passed = r.passed ∧
      (r.passed = true → ∃ c : Certificate,
        db'.certificates = db.certificates ++ [c] ∧ c.is_paid = false ∧
        r.certificate_code = some c.certificate_code) ∧
      (r.passed = false →
        db'.certificates = db.certificates ∧ r.certificate_code = none) := by
  obtain ⟨ct, score, rows, hct, hg, hT, hsf⟩ := submit_exam_ok_elim hok
  have hdb : db' = (submitFinish (getOrCreateUser db req.name req.email).2
      (getOrCreateUser db req.name req.email).1 ct year req score rows).2 := by
    rw [hsf]
  have hr : r = (submitFinish (getOrCreateUser db req.name req.email).2
      (getOrCreateUser db req.name req.email).1 ct year req score rows).1 := by
    rw [hsf]
  refine ⟨attemptRow (getOrCreateUser db req.name req.email).2
    (getOrCreateUser db req.name req.email).1 ct req score, ?_, ?_, ?_, ?_⟩
  · rw [hdb, submitFinish_snd_attempts, getOrCreateUser_attempts]
  · rw [hr, submitFinish_fst]
    rfl
  · intro hp
    have hp2 : submitPassed ct score = true := by
      rw [hr, submitFinish_fst] at hp; exact hp
    refine ⟨certRow (getOrCreateUser db req.name req.email).2
      (getOrCreateUser db req.name req.email).1 ct year req score, ?_, rfl, ?_⟩
    · rw [hdb, submitFinish_snd_certificates, if_pos hp2,
        getOrCreateUser_certificates]
    · rw [hr]
      simp [submitFinish_fst, certRow, hp2]
  · intro hp
    have hp2 : submitPassed ct score = false := by
      rw [hr, submitFinish_fst] at hp; exact hp
    constructor
    · rw [hdb, submitFinish_snd_certificates,
        if_neg (by simp [hp2]), getOrCreateUser_certificates]
    · rw [hr]
      simp [submitFinish_fst, hp2]

/-- C4 witness: a failing one-answer submission on LEVEL-2. -/
theorem submit_exam_certificate_iff_passed_witness :
    ∃ att : Attempt, dbW4f.attempts = dbW4.attempts ++ [att] ∧
      att.is_passed = rW4.passed ∧
      (rW4.passed = true → ∃ c : Certificate,
        dbW4f.certificates = dbW4.certificates ++ [c] ∧ c.is_paid = false ∧
        rW4.certificate_code = some c.certificate_code) ∧
      (rW4.passed = false →
        dbW4f.certificates = dbW4.certificates ∧
        rW4.certificate_code = none) :=
  submit_exam_certificate_iff_passed dbW4 2026 reqW4 rW4 dbW4f
    (by
      norm_num [submit_exam, submitWithCert, findCertType, getOrCreateUser,
        questionBank, qmapGet, gradeAnswers, answerMarks, submitFinish,
        attemptRow, certRow, submitPassed, submitPct, submitTotal, round2,
        dbW4, reqW4, rW4, dbW4f, List.find?])

/-- C8 (amended): every Certificate minted by main.submit_exam carries a
code formatted from the issuance year and the id of the Attempt row (the
store position db.nextAttemptId), written in a single insert that already
carries the final code; there is no placeholder row and the suffix is not
the Certificate row id. -/
theorem certificate_code_from_attempt_id
    (db : DB) (year : Nat) (req : SubmitRequest) (r : SubmitResult) (db' : DB)
    (hok : submit_exam db year req = Except.ok (r, db'))
    (hpass : r.passed = true) :
    ∃ att : Attempt, ∃ c : Certificate,
      db'.attempts = db.attempts ++ [att] ∧
      att.id = db.nextAttemptId ∧
      db'.certificates = db.certificates ++ [c] ∧
      c.certificate_code = mkCertCode year att.id ∧
      r.certificate_code = some c.certificate_code := by
  obtain ⟨ct, score, rows, hct, hg, hT, hsf⟩ := submit_exam_ok_elim hok
  have hdb : db' = (submitFinish (getOrCreateUser db req.name req.email).2
      (getOrCreateUser db req.name req.email).1 ct year req score rows).2 := by
    rw [hsf]
  have hr : r = (submitFinish (getOrCreateUser db req.name req.email).2
      (getOrCreateUser db req.name req.email).1 ct year req score rows).1 := by
    rw [hsf]
  have hp2 : submitPassed ct score = true := by
    rw [hr, submitFinish_fst] at hpass; exact hpass
  refine ⟨attemptRow (getOrCreateUser db req.name req.email).2
      (getOrCreateUser db req.name req.email).1 ct req score,
    certRow (getOrCreateUser db req.name req.email).2
      (getOrCreateUser db req.name req.email).1 ct year req score,
    ?_, ?_, ?_, ?_, ?_⟩
  · rw [hdb, submitFinish_snd_attempts, getOrCreateUser_attempts]
  · show (getOrCreateUser db req.name req.email).2.nextAttemptId
      = db.nextAttemptId
    exact getOrCreateUser_nextAttemptId db req.name req.email
  · rw [hdb, submitFinish_snd_certificates, if_pos hp2,
      getOrCreateUser_certificates]
  · rfl
  · rw [hr]
    simp [submitFinish_fst, certRow, hp2]

/-- C8 counterexample: with the attempt counter at 4 and the certificate
counter at 1, the minted Certificate row has id 1 but code IPS-2026-000004:
the suffix comes from the Attempt id, not from the Certificate row id, so
the claim as frozen (suffix from the Certificate row's own id, written via
placeholder insert then update) is false of main.py. -/
theorem certificate_code_not_own_id_cx :
    (submit_exam dbC8 2026 reqC8).toOption.map
        (fun p => p.2.certificates.map (fun c => (c.id, c.certificate_code)))
      = some [(1, "IPS-2026-000004")] ∧
    "IPS-2026-000004" ≠ mkCertCode 2026 1 := by
  constructor
  · norm_num [submit_exam, submitWithCert, findCertType, getOrCreateUser,
      questionBank, qmapGet, gradeAnswers, answerMarks, submitFinish,
      attemptRow, certRow, submitPassed, submitPct, submitTotal, round2,
      mkCertCode, pad6, dbC8, reqC8, ctA, mkQ1, List.find?, Except.toOption]
    decide
  · decide

/-- C8 witness: attempt counter at 7, certificate counter at 1, year 2027. -/
theorem certificate_code_from_attempt_id_witness :
    ∃ att : Attempt, ∃ c : Certificate,
      dbW8f.attempts = dbW8.attempts ++ [att] ∧
      att.id = dbW8.nextAttemptId ∧
      dbW8f.certificates = dbW8.certificates ++ [c] ∧
      c.certificate_code = mkCertCode 2027 att.id ∧
      rW8.certificate_code = some c.certificate_code :=
  certificate_code_from_attempt_id dbW8 2027 reqW8 rW8 dbW8f
    (by
      norm_num [submit_exam, submitWithCert, findCertType, getOrCreateUser,
        questionBank, qmapGet, gradeAnswers, answerMarks, submitFinish,
        attemptRow, certRow, submitPassed, submitPct, submitTotal, round2,
        mkCertCode, pad6, dbW8, reqW8, rW8, dbW8f, List.find?]
      decide)
    rfl

/-- C9: in the grading loop of main.submit_exam, an answer whose
selected_option_id is None against a bank question whose correct_option is
None (as for non-MCQ rows in the schema) is graded as correct by the plain
None == None comparison, and its recorded Answer row is awarded the full
per-question mark (cert_type.mcq_mark, the mark submit_exam passes in). -/
theorem none_selected_none_correct_full_marks
    (mark : Int) (bank : List Question) (aid : Nat) :
    ∀ (pre post : List AnswerItem) (a : AnswerItem) (q : Question)
      (s : Int) (rows : List AnswerRow),
      qmapGet bank a.question_id = some q →
      q.correct_option = none →
      a.selected_option_id = none →
      gradeAnswers mark bank aid (pre ++ a :: post) = Except.ok (s, rows) →
      (rows.map (fun row => row.marks_awarded))[pre.length]? = some mark := by
  intro pre
  induction pre with
  | nil =>
    intro post a q s rows hq hqc ha hg
    simp only [List.nil_append] at hg
    unfold gradeAnswers at hg
    rw [hq] at hg
    cases hr : gradeAnswers mark bank aid post with
    | error e => rw [hr] at hg; cases hg
    | ok pr =>
      obtain ⟨s2, rows2⟩ := pr
      rw [hr] at hg
      obtain ⟨h1, h2⟩ := Prod.mk.injEq _ _ _ _ ▸ (Except.ok.injEq _ _).mp hg
      rw [← h2]
      simp [answerMarks, ha, hqc]
  | cons p pre ih =>
    intro post a q s rows hq hqc ha hg
    simp only [List.cons_append] at hg
    unfold gradeAnswers at hg
    cases hp : qmapGet bank p.question_id with
    | none => rw [hp] at hg; cases hg
    | some qp =>
      rw [hp] at hg
      cases hr : gradeAnswers mark bank aid (pre ++ a :: post) with
      | error e => rw [hr] at hg; cases hg
      | ok pr =>
        obtain ⟨s2, rows2⟩ := pr
        rw [hr] at hg
        obtain ⟨h1, h2⟩ := Prod.mk.injEq _ _ _ _ ▸ (Except.ok.injEq _ _).mp hg
        rw [← h2]
        simpa using ih post a q s2 rows2 hq hqc ha hr

/-- C9 witness: a SHORT question with NULL correct_option, answered with a
NULL selected option, awarded the full mark 4. -/
theorem none_selected_none_correct_full_marks_witness :
    (([{ attempt_id := 1, question_id := 7, selected_option_id := none
         correct_option := none, marks_awarded := 4 }] : List AnswerRow).map
      (fun row => row.marks_awarded))[(0 : Nat)]? = some 4 :=
  none_selected_none_correct_full_marks 4 bankW9 1 [] [] aW9
    { id := 7, certificate_code := "LEVEL-3", correct_option := none
      question_type := "SHORT", max_marks := 4 }
    4
    [{ attempt_id := 1, question_id := 7, selected_option_id := none
       correct_option := none, marks_awarded := 4 }]
    rfl rfl rfl rfl

/-- C7 (amended): main.download_certificate returns the clean render when
the certificate exists, is paid, and its owning user row exists; it fails
with the 403 payment-required error when the certificate exists unpaid, and
it fails with the same 403 payment-required error, not a 404 NotFound, when
no certificate with the code exists (the handler merges both cases in one
test). -/
theorem download_payment_gate (db : DB) (code : String) :
    (findCertificate db code = none →
      download_certificate db code
        = Except.error (PyErr.httpError 403 "Payment required")) ∧
    (∀ cert : Certificate, findCertificate db code = some cert →
      (cert.is_paid = false →
        download_certificate db code
          = Except.error (PyErr.httpError 403 "Payment required")) ∧
      (cert.is_paid = true → ∀ u : User, getUser db cert.user_id = some u →
        download_certificate db code = Except.ok
          { cert_code := cert.certificate_code, user_name := u.full_name
            grade := cert.grade, percentage := cert.percentage
            watermarked := false })) := by
  constructor
  · intro h
    unfold download_certificate
    rw [h]
  · intro cert hc
    constructor
    · intro hpaid
      unfold download_certificate
      rw [hc]
      show (if cert.is_paid = true then renderClean db cert
        else Except.error (PyErr.httpError 403 "Payment required"))
        = Except.error (PyErr.httpError 403 "Payment required")
      rw [if_neg (by simp [hpaid])]
    · intro hpaid u hu
      unfold download_certificate
      rw [hc]
      show (if cert.is_paid = true then renderClean db cert
        else Except.error (PyErr.httpError 403 "Payment required"))
        = Except.ok { cert_code := cert.certificate_code
                      user_name := u.full_name, grade := cert.grade
                      percentage := cert.percentage, watermarked := false }
      rw [if_pos hpaid]
      unfold renderClean
      rw [hu]

/-- C7 counterexample: on an empty store, downloading an unknown code fails
with the 403 payment-required error and not with a NotFound response, so
the 404 clause of the claim is false of main.py. -/
theorem download_unknown_code_cx :
    download_certificate dbC7 "IPS-2025-000001"
      = Except.error (PyErr.httpError 403 "Payment required") ∧
    isNotFoundResp (download_certificate dbC7 "IPS-2025-000001") = false := by
  exact ⟨rfl, rfl⟩

/-- C7 witness: a paid certificate owned by an existing user downloads
clean. -/
theorem download_payment_gate_witness :
    download_certificate dbW7 "IPS-2026-000002" = Except.ok
      { cert_code := certW7.certificate_code, user_name := uW7.full_name
        grade := certW7.grade, percentage := certW7.percentage
        watermarked := false } :=
  ((download_payment_gate dbW7 "IPS-2026-000002").2 certW7 rfl).2 rfl uW7 rfl

theorem setPaidFirst_find {cs : List Certificate} {code : String}
    {cert : Certificate}
    (h : cs.find? (fun c => c.certificate_code == code) = some cert) :
    (setPaidFirst cs code).find? (fun c => c.certificate_code == code)
      = some { cert with is_paid := true } := by
  induction cs with
  | nil => cases h
  | cons c cs ih =>
    cases hc : (c.certificate_code == code) with
    | true =>
      have hfc : List.find? (fun x => x.certificate_code == code) (c :: cs)
          = some c := List.find?_cons_of_pos cs hc
      rw [hfc] at h
      injection h with hcc
      subst hcc
      unfold setPaidFirst
      rw [if_pos hc]
      exact List.find?_cons_of_pos cs hc
    | false =>
      have hfc : List.find? (fun x => x.certificate_code == code) (c :: cs)
          = List.find? (fun x => x.certificate_code == code) cs :=
        List.find?_cons_of_neg cs (by simp [hc])
      rw [hfc] at h
      unfold setPaidFirst
      rw [if_neg (by simp [hc])]
      have hfc2 : List.find? (fun x => x.certificate_code == code)
          (c :: setPaidFirst cs code)
          = List.find? (fun x => x.certificate_code == code)
            (setPaidFirst cs code) :=
        List.find?_cons_of_neg _ (by simp [hc])
      rw [hfc2]
      exact ih h

theorem webhookCapture_paid {st : WebhookState} {code : String}
    {cert : Certificate}
    (hc : findCertificate st.db code = some cert) (hp : cert.is_paid = true) :
    webhookCapture code st = (Except.ok WebhookResp.ok, st) := by
  unfold webhookCapture
  rw [hc]
  simp [hp]

theorem webhookCapture_unpaid {st : WebhookState} {code : String}
    {cert : Certificate} {u : User}
    (hc : findCertificate st.db code = some cert) (hp : cert.is_paid = false)
    (hu : getUser st.db cert.user_id = some u) :
    webhookCapture code st =
      (Except.ok WebhookResp.ok,
       { db := { st.db with
           certificates := setPaidFirst st.db.certificates code }
         emails := st.emails ++ [(cert.user_id, cert.certificate_code)] }) := by
  unfold webhookCapture
  rw [hc]
  simp [hp, hu]

theorem razorpay_webhook_valid
    {hm : String → String → String} {secret body : String}
    {parse : String → Option WebhookPayload} {st : WebhookState}
    {payload : WebhookPayload}
    (hparse : parse body = some payload) :
    razorpay_webhook hm secret body (some (hm secret body)) parse st
      = webhookApply payload st := by
  unfold razorpay_webhook
  simp [hparse]

theorem webhookApply_captured {payload : WebhookPayload} {st : WebhookState}
    {code : String}
    (hev : payload.event = some "payment.captured")
    (hcode : payload.notes_certificate_code = some code) :
    webhookApply payload st = webhookCapture code st := by
  unfold webhookApply
  rw [if_pos hev, hcode]

theorem webhook_sig_mismatch
    (hm : String → String → String) (secret body : String)
    (parse : String → Option WebhookPayload) (st : WebhookState)
    (sig : String) (hne : sig ≠ hm secret body) :
    razorpay_webhook hm secret body (some sig) parse st
      = (Except.error (PyErr.httpError 400 "Invalid signature"), st) := by
  unfold razorpay_webhook
  show (if sig ≠ hm secret body then
      ((Except.error (PyErr.httpError 400 "Invalid signature") :
        Except PyErr WebhookResp), st)
    else match parse body with
      | none => (Except.error PyErr.jsonDecodeError, st)
      | some payload => webhookApply payload st)
    = (Except.error (PyErr.httpError 400 "Invalid signature"), st)
  rw [if_pos hne]

/-- C5: two deliveries of a validly signed payment.captured event for an
existing certificate both return the ok acknowledgement; after the first
the certificate is paid, the second delivery returns exactly the state the
first produced (a no-op), and the notifier email is sent at most once
across the two deliveries. -/
theorem webhook_payment_captured_idempotent
    (hm : String → String → String) (secret body : String)
    (parse : String → Option WebhookPayload) (st : WebhookState)
    (payload : WebhookPayload) (code : String) (cert : Certificate)
    (hparse : parse body = some payload)
    (hev : payload.event = some "payment.captured")
    (hcode : payload.notes_certificate_code = some code)
    (hcert : findCertificate st.db code = some cert)
    (huser : (getUser st.db cert.user_id).isSome) :
    ∃ st1 : WebhookState,
      razorpay_webhook hm secret body (some (hm secret body)) parse st
        = (Except.ok WebhookResp.ok, st1) ∧
      razorpay_webhook hm secret body (some (hm secret body)) parse st1
        = (Except.ok WebhookResp.ok, st1) ∧
      (∃ c : Certificate,
        findCertificate st1.db code = some c ∧ c.is_paid = true) ∧
      st1.emails.length ≤ st.emails.length + 1 := by
  have hroute : ∀ s : WebhookState,
      razorpay_webhook hm secret body (some (hm secret body)) parse s
        = webhookCapture code s := by
    intro s
    rw [razorpay_webhook_valid hparse, webhookApply_captured hev hcode]
  cases hp : cert.is_paid with
  | true =>
    refine ⟨st, ?_, ?_, ⟨cert, hcert, hp⟩, Nat.le_succ _⟩
    · rw [hroute st, webhookCapture_paid hcert hp]
    · rw [hroute st, webhookCapture_paid hcert hp]
  | false =>
    obtain ⟨u, hu⟩ := Option.isSome_iff_exists.mp huser
    have hfind1 : findCertificate
        { st.db with certificates := setPaidFirst st.db.certificates code }
        code = some { cert with is_paid := true } :=
      setPaidFirst_find hcert
    refine ⟨_, by rw [hroute st]; exact webhookCapture_unpaid hcert hp hu,
      ?_, ?_, ?_⟩
    · rw [hroute _]
      exact webhookCapture_paid hfind1 rfl
    · exact ⟨{ cert with is_paid := true }, hfind1, rfl⟩
    · simp

/-- C5 witness: a single unpaid certificate with an existing owner, hit by
two identical validly signed payment.captured deliveries. -/
theorem webhook_payment_captured_idempotent_witness :
    ∃ st1 : WebhookState,
      razorpay_webhook hmW5 "whsec" "rawbody"
        (some (hmW5 "whsec" "rawbody")) parseW5 stW5
        = (Except.ok WebhookResp.ok, st1) ∧
      razorpay_webhook hmW5 "whsec" "rawbody"
        (some (hmW5 "whsec" "rawbody")) parseW5 st1
        = (Except.ok WebhookResp.ok, st1) ∧
      (∃ c : Certificate,
        findCertificate st1.db "IPS-2026-000001" = some c
          ∧ c.is_paid = true) ∧
      st1.emails.length ≤ stW5.emails.length + 1 :=
  webhook_payment_captured_idempotent hmW5 "whsec" "rawbody" parseW5 stW5
    payW5 "IPS-2026-000001" certW5 rfl rfl rfl rfl rfl

/-- C6: a webhook request whose supplied signature differs from the keyed
hash of the exact raw body is rejected with the 400 invalid-signature error
and the state is returned untouched; conversely any call that changes the
state carried a signature equal to the keyed hash, so only a matching
signature allows any transition. -/
theorem webhook_rejects_bad_signature
    (hm : String → String → String) (secret body : String)
    (parse : String → Option WebhookPayload) (st : WebhookState) :
    (∀ sig : String, sig ≠ hm secret body →
      razorpay_webhook hm secret body (some sig) parse st
        = (Except.error (PyErr.httpError 400 "Invalid signature"), st)) ∧
    (∀ s : Option String,
      (razorpay_webhook hm secret body s parse st).2 ≠ st →
      s = some (hm secret body)) := by
  constructor
  · intro sig hne
    exact webhook_sig_mismatch hm secret body parse st sig hne
  · intro s hchange
    cases s with
    | none => exact absurd rfl hchange
    | some sig =>
      by_cases he : sig = hm secret body
      · rw [he]
      · exfalso
        apply hchange
        rw [webhook_sig_mismatch hm secret body parse st sig he]

/-- C6 witness: a forged signature against a fixed keyed hash is rejected
with 400 and the store is unchanged. -/
theorem webhook_rejects_bad_signature_witness :
    razorpay_webhook hmW6 "whsec" "rawbody" (some "forged") parseW6 stW6
      = (Except.error (PyErr.httpError 400 "Invalid signature"), stW6) :=
  (webhook_rejects_bad_signature hmW6 "whsec" "rawbody" parseW6 stW6).1
    "forged" (by decide)

/-- C10: a webhook request with no X-Razorpay-Signature header fails with
TypeError at the hmac.compare_digest call and returns the state untouched,
for every store, every body and every parse function: the failure happens
before the body is parsed and before any database access, and the request
is never treated as validly signed. -/
theorem webhook_missing_signature_header
    (hm : String → String → String) (secret body : String)
    (parse : String → Option WebhookPayload) (st : WebhookState) :
    razorpay_webhook hm secret body none parse st
      = (Except.error PyErr.typeError, st) := rfl

end IPS
